import Mathlib

/-!
Shallow embedding of the BLUEMEAL school-meal planning application
(`app.py`, `models.py`): the daily nutrition analysis engine
(`analyze_daily_nutrition`), the suggestion generator
(`generate_suggestions`, `find_items_high_in_nutrient`), the per-meal
advisory checks, and the two mutation endpoints the claims mention
(`student_select`, `add_menu_template`).

Python `float` values are modelled as `ℚ`; Python dicts (whose absent-key
access raises `KeyError`) are modelled as association lists with
`Option`-valued access; a raised exception is modelled by the `error`
side of `Except`.  Display-only interpolated message strings
(`f"..."`) are not carried in the result structures; the static texts of
`NUTRIENT_BENEFITS` are.
-/

namespace BlueMeal

/-- Python dict: an association list in insertion order (all dicts built by
the program have pairwise distinct keys). -/
abbrev Dict (α : Type) := List (String × α)

/-- `d[k]` as a read: `none` models a `KeyError`. -/
def dget {α : Type} (d : Dict α) (k : String) : Option α :=
  (d.find? (fun p => p.1 == k)).map Prod.snd

/-- `d[k] = f d[k]` (read-modify-write on an existing key): `none` models the
`KeyError` raised by the read when `k` is not a key of `d`. -/
def dmodify {α : Type} : Dict α → String → (α → α) → Option (Dict α)
  | [], _, _ => none
  | (k, v) :: rest, key, f =>
    if k == key then some ((k, f v) :: rest)
    else (dmodify rest key f).map (fun d => (k, v) :: d)

/-- `models.MenuItemTemplate` (the `created_at` audit column is omitted). -/
structure MenuItemTemplate where
  id : Nat
  name : String
  calories : ℚ
  protein : ℚ
  carbs : ℚ
  fats : ℚ
  sugar : ℚ
  fibre : ℚ
  sodium : ℚ
deriving DecidableEq, Repr

/-- `models.StudentSelection` (the `id` primary key is omitted; `template_id`
is a nullable foreign key).  Dates are abstracted to `Nat`. -/
structure StudentSelection where
  student_id : Nat
  date : Nat
  meal_type : String
  template_id : Option Nat
deriving DecidableEq, Repr

/-- The relational store: the `menu_item_template` and `student_selection`
tables. -/
structure DB where
  templates : List MenuItemTemplate
  selections : List StudentSelection
deriving DecidableEq, Repr

/-- `s.template`: the SQLAlchemy relationship resolving `template_id` against
the template table (`None` when the id does not resolve). -/
def getTemplate (ts : List MenuItemTemplate) : Option Nat → Option MenuItemTemplate
  | none => none
  | some tid => ts.find? (fun t => t.id == tid)

/-- One row of `DAILY_RECOMMENDED` in `app.py`. -/
structure RecRange where
  min : ℚ
  max : ℚ
  unit : String
deriving DecidableEq, Repr

/-- `DAILY_RECOMMENDED` from `app.py`, in source order. -/
def DAILY_RECOMMENDED : Dict RecRange :=
  [("calories", ⟨1800, 2400, "kcal"⟩),
   ("protein", ⟨50, 150, "g"⟩),
   ("carbs", ⟨225, 325, "g"⟩),
   ("fats", ⟨44, 78, "g"⟩),
   ("sugar", ⟨0, 50, "g"⟩),
   ("fibre", ⟨25, 38, "g"⟩),
   ("sodium", ⟨0, 2300, "mg"⟩)]

/-- One row of `NUTRIENT_BENEFITS` in `app.py`. -/
structure BenefitInfo where
  benefit : String
  impact : String
  daily_impact : String
deriving DecidableEq, Repr

/-- `NUTRIENT_BENEFITS` from `app.py`, in source order. -/
def NUTRIENT_BENEFITS : Dict BenefitInfo :=
  [("calories",
    ⟨"Provides energy for daily activities and learning",
     "May cause fatigue and difficulty staying active",
     "You might feel tired and struggle with physical activities"⟩),
   ("protein",
    ⟨"Helps build muscle and keeps you full longer",
     "May cause hunger between meals and reduced focus",
     "You might feel tired during afternoon classes"⟩),
   ("carbs",
    ⟨"Your brain\x27s main fuel source for focus and energy",
     "May cause energy crashes and difficulty concentrating",
     "You could feel sluggish during study sessions"⟩),
   ("fats",
    ⟨"Supports brain function and helps absorb vitamins",
     "May lead to difficulty concentrating",
     "Your focus might decline during long classes"⟩),
   ("fibre",
    ⟨"Aids digestion and keeps you feeling full",
     "May cause digestive discomfort and irregular energy",
     "You might feel bloated or uncomfortable after meals"⟩),
   ("sugar",
    ⟨"Should be limited - causes energy spikes and crashes",
     "May cause afternoon energy crashes",
     "You could feel very tired around 2-3 PM"⟩),
   ("sodium",
    ⟨"Should be limited - excess can cause water retention",
     "May cause bloating and headaches",
     "You might feel puffy and less energetic"⟩)]

/-- The seven tracked nutrient keys in the iteration order of the `totals`
dict literal in `analyze_daily_nutrition`. -/
def NUTRIENTS : List String :=
  ["calories", "protein", "carbs", "fats", "sugar", "fibre", "sodium"]

/-- The three meal-slot keys of the `meals` / `meal_totals` dict literals. -/
def SLOTS : List String := ["breakfast", "lunch", "dinner"]

/-- The zero-initialised totals dict literal. -/
def zeroNutr : Dict ℚ := NUTRIENTS.map (fun n => (n, 0))

/-- Python `round(q)` (banker\x27s rounding: ties go to the even integer). -/
def pyRound (q : ℚ) : ℤ :=
  if q - ⌊q⌋ < 1/2 then ⌊q⌋
  else if q - ⌊q⌋ > 1/2 then ⌊q⌋ + 1
  else if 2 ∣ ⌊q⌋ then ⌊q⌋ else ⌊q⌋ + 1

/-- Python `round(q, 1)`. -/
def round1 (q : ℚ) : ℚ := (pyRound (q * 10) : ℚ) / 10

/-- `x.calories`, `x.protein`, ... selected by the nutrient key: the lambdas
of `nutrient_map` in `find_items_high_in_nutrient`, and
`getattr(item, nutrient)`. -/
def templateField (nutrient : String) (t : MenuItemTemplate) : ℚ :=
  if nutrient = "calories" then t.calories
  else if nutrient = "protein" then t.protein
  else if nutrient = "carbs" then t.carbs
  else if nutrient = "fats" then t.fats
  else if nutrient = "sugar" then t.sugar
  else if nutrient = "fibre" then t.fibre
  else if nutrient = "sodium" then t.sodium
  else 0

/-- The key set of `nutrient_map` in `find_items_high_in_nutrient` (no
`sugar`, no `sodium`). -/
def nutrient_map_keys : List String := ["calories", "protein", "carbs", "fats", "fibre"]

/-- One entry of the `results` list built by `find_items_high_in_nutrient`. -/
structure RecItem where
  name : String
  amount : ℚ
  unit : String
deriving DecidableEq, Repr

/-- `find_items_high_in_nutrient(nutrient, exclude_meals)` from `app.py`.
`ts` is the `MenuItemTemplate` table queried inside the function.  Python
`sorted(..., key=..., reverse=True)` is a stable descending sort; a stable
sort result is uniquely determined by the preorder and the input order, so
the stable `List.insertionSort` on the reversed comparison computes the same
list.  The `unit` lookup `DAILY_RECOMMENDED[nutrient]["unit"]` is reached
only when `nutrient` is one of the `nutrient_map` keys, for which it always
resolves; `getD ""` is therefore never the taken branch. -/
def find_items_high_in_nutrient (ts : List MenuItemTemplate) (nutrient : String)
    (exclude_meals : Dict (List String)) : List RecItem :=
  let exclude_names := exclude_meals.foldl (fun acc p => acc ++ p.2) []
  let all_items := ts.filter (fun t => !(exclude_names.contains t.name))
  if nutrient ∈ nutrient_map_keys then
    let sorted_items := all_items.insertionSort
      (fun a b => templateField nutrient b ≤ templateField nutrient a)
    (sorted_items.take 5).map (fun t =>
      { name := t.name,
        amount := round1 (templateField nutrient t),
        unit := ((dget DAILY_RECOMMENDED nutrient).map RecRange.unit).getD "" })
  else []

/-- The two dict shapes appended to `suggestions` by `generate_suggestions`:
`"type": "warning"` and `"type": "suggestion"`.  The interpolated `message`
f-string is display-only and not carried; the other fields are. -/
inductive Suggestion
  | warning (nutrient : String) (reason daily_impact : String) (items : List RecItem)
  | deficiency (nutrient : String) (current target deficit : ℚ) (unit : String)
      (benefit daily_impact : String) (recommended_items : List RecItem)
deriving DecidableEq, Repr

/-- The body of the `for nutrient, value in totals.items()` loop of
`generate_suggestions`, threading the `suggestions` accumulator.  The
`DAILY_RECOMMENDED[nutrient]` / `NUTRIENT_BENEFITS[nutrient]` accesses
raise `KeyError` (here: `none`) on a key outside the catalog. -/
def suggestionForNutrient (ts : List MenuItemTemplate) (current_meals : Dict (List String))
    (suggestions : List Suggestion) (p : String × ℚ) : Option (List Suggestion) := do
  let nutrient := p.1
  let value := p.2
  let r ← dget DAILY_RECOMMENDED nutrient
  if nutrient = "sugar" ∨ nutrient = "sodium" then
    if value > r.max then
      let b ← dget NUTRIENT_BENEFITS nutrient
      pure (suggestions ++ [Suggestion.warning nutrient b.impact b.daily_impact []])
    else
      pure suggestions
  else
    if value < r.min then
      let deficit := r.min - value
      let recommended_items := find_items_high_in_nutrient ts nutrient current_meals
      let b ← dget NUTRIENT_BENEFITS nutrient
      pure (suggestions ++ [Suggestion.deficiency nutrient.capitalize (round1 value) r.min
        (round1 deficit) r.unit b.benefit b.daily_impact (recommended_items.take 3)])
    else
      pure suggestions

/-- `generate_suggestions(totals, current_meals)` from `app.py` (`ts` is the
template table used by the nested `find_items_high_in_nutrient` query). -/
def generate_suggestions (ts : List MenuItemTemplate) (totals : Dict ℚ)
    (current_meals : Dict (List String)) : Option (List Suggestion) :=
  totals.foldlM (suggestionForNutrient ts current_meals) []

/-- The three f-string advisories appended to `meal_suggestions` in
`analyze_daily_nutrition`, tagged with the measured meal total they embed. -/
inductive MealAdvisory
  | low_protein (value : ℚ)
  | low_fibre (value : ℚ)
  | high_sugar (value : ℚ)
deriving DecidableEq, Repr

/-- The per-meal advisory checks of `analyze_daily_nutrition` (lines 195-207):
protein `< 15`, fibre `< 5`, sugar `> 15`, appended in that order.  The three
`meal_totals[meal_name][...]` reads are the possible `KeyError`s. -/
def mealAdvisories (mt : Dict ℚ) : Option (List MealAdvisory) := do
  let p ← dget mt "protein"
  let f ← dget mt "fibre"
  let s ← dget mt "sugar"
  pure ((if p < 15 then [MealAdvisory.low_protein p] else []) ++
        (if f < 5 then [MealAdvisory.low_fibre f] else []) ++
        (if s > 15 then [MealAdvisory.high_sugar s] else []))

/-- One value of the `meal_breakdown` dict. -/
structure MealEntry where
  items : List String
  totals : Dict ℚ
  suggestions : List MealAdvisory
deriving DecidableEq, Repr

/-- The `meal_breakdown` construction loop of `analyze_daily_nutrition`:
iterate `meals.items()`, skip empty item lists (`continue`), read
`meal_totals[meal_name]` and attach the advisory list. -/
def meal_breakdown_of (meals : Dict (List String)) (meal_totals : Dict (Dict ℚ)) :
    Option (Dict MealEntry) :=
  meals.foldlM (fun acc p =>
    if p.2.isEmpty then pure acc
    else do
      let mt ← dget meal_totals p.1
      let advs ← mealAdvisories mt
      pure (acc ++ [(p.1, ⟨p.2, mt, advs⟩)])) []

/-- The result dict of `analyze_daily_nutrition`. -/
structure DailyAnalysis where
  totals : Dict ℚ
  percentages : Dict ℚ
  meals : Dict (List String)
  suggestions : List Suggestion
  meal_breakdown : Dict MealEntry
deriving DecidableEq, Repr

/-- An uncaught Python exception escaping `analyze_daily_nutrition`
(`KeyError` on a dict access). -/
inductive AnalyzeError
  | keyError (key : String)
deriving DecidableEq, Repr

/-- The seven `totals[...] += s.template....` statements (also reused for the
inner `meal_totals[slot][...] +=` block, which updates the same seven keys).
`none` models the `KeyError` on a missing nutrient key. -/
def addTemplateNutr (t : MenuItemTemplate) (d : Dict ℚ) : Option (Dict ℚ) := do
  let d ← dmodify d "calories" (· + t.calories)
  let d ← dmodify d "protein" (· + t.protein)
  let d ← dmodify d "carbs" (· + t.carbs)
  let d ← dmodify d "fats" (· + t.fats)
  let d ← dmodify d "sugar" (· + t.sugar)
  let d ← dmodify d "fibre" (· + t.fibre)
  let d ← dmodify d "sodium" (· + t.sodium)
  pure d

/-- The `meals` dict literal. -/
def initMeals : Dict (List String) := SLOTS.map (fun sl => (sl, []))

/-- The `meal_totals` dict literal. -/
def initMealTotals : Dict (Dict ℚ) := SLOTS.map (fun sl => (sl, zeroNutr))

/-- The mutable state of the `for s in selections` loop. -/
abbrev LoopState := Dict ℚ × Dict (List String) × Dict (Dict ℚ)

/-- One iteration of the `for s in selections` loop of
`analyze_daily_nutrition`: skip rows whose template does not resolve, else
append the name to `meals[s.meal_type]` (a `KeyError` on an unknown slot),
add the seven fields to the daily totals, then to
`meal_totals[s.meal_type]`. -/
def processSelection (ts : List MenuItemTemplate) (st : LoopState)
    (s : StudentSelection) : Except AnalyzeError LoopState :=
  match getTemplate ts s.template_id with
  | none => Except.ok st
  | some t =>
    let (totals, meals, meal_totals) := st
    match dmodify meals s.meal_type (fun items => items ++ [t.name]) with
    | none => Except.error (AnalyzeError.keyError s.meal_type)
    | some meals =>
      match addTemplateNutr t totals with
      | none => Except.error (AnalyzeError.keyError "nutrient")
      | some totals =>
        match dget meal_totals s.meal_type with
        | none => Except.error (AnalyzeError.keyError s.meal_type)
        | some mt =>
          match addTemplateNutr t mt with
          | none => Except.error (AnalyzeError.keyError "nutrient")
          | some mt2 =>
            match dmodify meal_totals s.meal_type (fun _ => mt2) with
            | none => Except.error (AnalyzeError.keyError s.meal_type)
            | some meal_totals => Except.ok (totals, meals, meal_totals)

/-- The body of the percentage loop of `analyze_daily_nutrition`:
`rec = DAILY_RECOMMENDED[nutrient]`, `target = (min + max) / 2`, then the
`sugar`/`sodium` split with the `min(100, ...)` clamp. -/
def percentageFor (p : String × ℚ) : Option (String × ℚ) := do
  let r ← dget DAILY_RECOMMENDED p.1
  let target := (r.min + r.max) / 2
  if p.1 = "sugar" ∨ p.1 = "sodium" then
    pure (p.1, min 100 ((p.2 / r.max) * 100))
  else
    pure (p.1, min 100 ((p.2 / target) * 100))

/-- The `percentages` dict built by iterating `totals.items()`. -/
def percentagesOf (totals : Dict ℚ) : Option (Dict ℚ) :=
  totals.mapM percentageFor

/-- The tail of `analyze_daily_nutrition` after the selection loop: the
percentage loop, the `generate_suggestions` call, the `meal_breakdown`
loop and the result dict. -/
def analyzeAssemble (ts : List MenuItemTemplate) (totals : Dict ℚ)
    (meals : Dict (List String)) (meal_totals : Dict (Dict ℚ)) :
    Except AnalyzeError (Option DailyAnalysis) :=
  match percentagesOf totals with
  | none => Except.error (AnalyzeError.keyError "rec")
  | some percentages =>
    match generate_suggestions ts totals meals with
    | none => Except.error (AnalyzeError.keyError "rec")
    | some suggestions =>
      match meal_breakdown_of meals meal_totals with
      | none => Except.error (AnalyzeError.keyError "meal")
      | some meal_breakdown =>
        Except.ok (some ⟨totals, percentages, meals, suggestions, meal_breakdown⟩)

/-- `analyze_daily_nutrition(student_id, date)` from `app.py`.  `Except.ok
none` is the `return None` "absent" case; `Except.error` is an uncaught
exception. -/
def analyze_daily_nutrition (db : DB) (student_id : Nat) (date : Nat) :
    Except AnalyzeError (Option DailyAnalysis) :=
  let selections := db.selections.filter
    (fun s => s.student_id == student_id && s.date == date)
  if selections.isEmpty then Except.ok none
  else
    match selections.foldlM (processSelection db.templates)
        (zeroNutr, initMeals, initMealTotals) with
    | Except.error e => Except.error e
    | Except.ok (totals, meals, meal_totals) =>
      analyzeAssemble db.templates totals meals meal_totals

/-- `student_select` (`POST /student/select`) from `app.py`: delete every
prior selection row for `(student_id, date)`, then insert one row per
`(slot, item_name)` pair whose name resolves to a template; names that do
not resolve are skipped (logged warning in the source). -/
def student_select (db : DB) (student_id : Nat) (date : Nat)
    (meals : List (String × List String)) : DB :=
  let remaining := db.selections.filter
    (fun s => !(s.student_id == student_id && s.date == date))
  let new_rows := meals.flatMap (fun p =>
    p.2.filterMap (fun item_name =>
      (db.templates.find? (fun t => t.name == item_name)).map (fun t =>
        ({ student_id := student_id, date := date, meal_type := p.1,
           template_id := some t.id } : StudentSelection))))
  { db with selections := remaining ++ new_rows }

/-- The JSON body of `POST /organisation/add-menu-template`, after JSON
decoding: `none` = field missing or JSON `null` (the `required` check);
for the seven numeric fields the inner `Option ℚ` is the result of
`float(...)` (`none` = raises `ValueError`). -/
structure TemplateRequest where
  name : Option String
  calories : Option (Option ℚ)
  protein : Option (Option ℚ)
  carbs : Option (Option ℚ)
  fats : Option (Option ℚ)
  sugar : Option (Option ℚ)
  fibre : Option (Option ℚ)
  sodium : Option (Option ℚ)
deriving DecidableEq, Repr

/-- The possible outcomes of `add_menu_template`: the 400 "required" error,
the 400 "Item already exists" error, an uncaught `ValueError` from
`float(...)`, or the committed template row. -/
inductive TemplateResult
  | missingField (field : String)
  | duplicateName
  | valueError
  | created (t : MenuItemTemplate)
deriving DecidableEq, Repr

/-- `add_menu_template` (`POST /organisation/add-menu-template`) from
`app.py`: the `required` presence loop in its field order, then the
duplicate-name check, then the seven `float(...)` conversions in
constructor-argument order.  No sign check is performed on the values. -/
def add_menu_template (ts : List MenuItemTemplate) (next_id : Nat)
    (r : TemplateRequest) : TemplateResult :=
  match r.name with
  | none => TemplateResult.missingField "name"
  | some nm =>
  match r.calories with
  | none => TemplateResult.missingField "calories"
  | some cal =>
  match r.protein with
  | none => TemplateResult.missingField "protein"
  | some prot =>
  match r.carbs with
  | none => TemplateResult.missingField "carbs"
  | some carb =>
  match r.fats with
  | none => TemplateResult.missingField "fats"
  | some fat =>
  match r.sugar with
  | none => TemplateResult.missingField "sugar"
  | some sug =>
  match r.fibre with
  | none => TemplateResult.missingField "fibre"
  | some fib =>
  match r.sodium with
  | none => TemplateResult.missingField "sodium"
  | some sod =>
  if (ts.find? (fun t => t.name == nm)).isSome then TemplateResult.duplicateName
  else
    match cal with
    | none => TemplateResult.valueError
    | some c =>
    match prot with
    | none => TemplateResult.valueError
    | some p =>
    match carb with
    | none => TemplateResult.valueError
    | some cb =>
    match fat with
    | none => TemplateResult.valueError
    | some ft =>
    match sug with
    | none => TemplateResult.valueError
    | some sg =>
    match fib with
    | none => TemplateResult.valueError
    | some fb =>
    match sod with
    | none => TemplateResult.valueError
    | some sd =>
    TemplateResult.created ⟨next_id, nm, c, p, cb, ft, sg, fb, sd⟩

end BlueMeal

namespace BlueMeal

/-! ### Generic association-list lemmas -/

lemma dget_cons_self {α : Type} (k : String) (v : α) (d : Dict α) :
    dget ((k, v) :: d) k = some v := by
  simp [dget, List.find?_cons]

lemma dget_cons_ne {α : Type} (k : String) (v : α) (d : Dict α) (n : String) (h : k ≠ n) :
    dget ((k, v) :: d) n = dget d n := by
  simp [dget, List.find?_cons, h]

lemma dmodify_cons_self {α : Type} (k : String) (v : α) (d : Dict α) (g : α → α) :
    dmodify ((k, v) :: d) k g = some ((k, g v) :: d) := by
  simp [dmodify]

lemma dmodify_cons_ne {α : Type} (k : String) (v : α) (d : Dict α) (n : String)
    (g : α → α) (h : k ≠ n) :
    dmodify ((k, v) :: d) n g = (dmodify d n g).map (fun d' => (k, v) :: d') := by
  simp [dmodify, h]

lemma dget_map_keys {α : Type} (keys : List String) (f : String → α) (n : String) :
    dget (keys.map (fun k => (k, f k))) n = if n ∈ keys then some (f n) else none := by
  induction keys with
  | nil => simp [dget]
  | cons k ks ih =>
    simp only [List.map_cons, List.mem_cons]
    by_cases h : k = n
    · subst h
      simp [dget_cons_self]
    · rw [dget_cons_ne _ _ _ _ h, ih]
      have hnk : ¬ n = k := fun e => h e.symm
      by_cases hn : n ∈ ks <;> simp [hn, hnk]

lemma dmodify_map_keys {α : Type} (keys : List String) (hnd : keys.Nodup)
    (f : String → α) (n : String) (g : α → α) :
    dmodify (keys.map (fun k => (k, f k))) n g =
      if n ∈ keys then
        some (keys.map (fun k => (k, if k = n then g (f k) else f k)))
      else none := by
  induction keys with
  | nil => simp [dmodify]
  | cons k ks ih =>
    rcases List.nodup_cons.1 hnd with ⟨hk, hks⟩
    simp only [List.map_cons, List.mem_cons]
    by_cases h : k = n
    · subst h
      rw [dmodify_cons_self]
      have hmap : List.map (fun x => (x, if x = k then g (f x) else f x)) ks =
          List.map (fun x => (x, f x)) ks :=
        List.map_congr_left (fun x hx => by
          have hxk : ¬ x = k := fun e => hk (e ▸ hx)
          simp [hxk])
      simp [hmap]
    · rw [dmodify_cons_ne _ _ _ _ _ h, ih hks]
      have hnk : ¬ n = k := fun e => h e.symm
      by_cases hn : n ∈ ks <;> simp [hn, hnk, h]

/-! ### The canonical dict shapes built by `analyze_daily_nutrition` -/

/-- A totals-shaped dict: the seven nutrient keys in source order. -/
def mkNDict (f : String → ℚ) : Dict ℚ := NUTRIENTS.map (fun n => (n, f n))

/-- A meals-shaped dict: the three slot keys in source order. -/
def mkSDict {α : Type} (g : String → α) : Dict α := SLOTS.map (fun sl => (sl, g sl))

/-- A meal-totals-shaped dict of dicts. -/
def mkMTDict (h : String → String → ℚ) : Dict (Dict ℚ) :=
  SLOTS.map (fun sl => (sl, mkNDict (h sl)))

lemma NUTRIENTS_nodup : NUTRIENTS.Nodup := by decide

lemma SLOTS_nodup : SLOTS.Nodup := by decide

lemma zeroNutr_eq : zeroNutr = mkNDict (fun _ => 0) := rfl

lemma initMeals_eq : initMeals = mkSDict (fun _ => ([] : List String)) := rfl

lemma initMealTotals_eq : initMealTotals = mkMTDict (fun _ _ => 0) := rfl

lemma mkNDict_congr {f₁ f₂ : String → ℚ} (h : ∀ n, f₁ n = f₂ n) :
    mkNDict f₁ = mkNDict f₂ := congrArg mkNDict (funext h)

lemma dget_mkNDict (f : String → ℚ) (n : String) :
    dget (mkNDict f) n = if n ∈ NUTRIENTS then some (f n) else none :=
  dget_map_keys NUTRIENTS f n

lemma dget_mkSDict {α : Type} (g : String → α) (sl : String) :
    dget (mkSDict g) sl = if sl ∈ SLOTS then some (g sl) else none :=
  dget_map_keys SLOTS g sl

lemma addTemplateNutr_mk (t : MenuItemTemplate) (f : String → ℚ) :
    addTemplateNutr t (mkNDict f) = some (mkNDict (fun n => f n + templateField n t)) := rfl

end BlueMeal

namespace BlueMeal

/-! ### Specification-level views of the selection loop -/

/-- The rows loaded by the `StudentSelection.query.filter_by(...)` call of
`analyze_daily_nutrition`. -/
def keySels (db : DB) (student_id date : Nat) : List StudentSelection :=
  db.selections.filter (fun s => s.student_id == student_id && s.date == date)

/-- The templates of the resolvable rows, in row order. -/
def resolvedAll (ts : List MenuItemTemplate) (sels : List StudentSelection) :
    List MenuItemTemplate :=
  sels.filterMap (fun s => getTemplate ts s.template_id)

/-- The templates of the resolvable rows of one meal slot, in row order. -/
def resolvedFor (ts : List MenuItemTemplate) (sels : List StudentSelection)
    (sl : String) : List MenuItemTemplate :=
  sels.filterMap (fun s =>
    if s.meal_type = sl then getTemplate ts s.template_id else none)

/-- The item names appended to `meals[sl]`, in row order. -/
def namesFor (ts : List MenuItemTemplate) (sels : List StudentSelection)
    (sl : String) : List String :=
  (resolvedFor ts sels sl).map MenuItemTemplate.name

/-- Sum of one nutrient field over a list of templates. -/
def sumField (n : String) (l : List MenuItemTemplate) : ℚ :=
  (l.map (templateField n)).sum

/-- Every resolvable row names one of the three meal slots: the precondition
under which the selection loop raises no `KeyError`. -/
def validSlots (ts : List MenuItemTemplate) (sels : List StudentSelection) : Prop :=
  ∀ s ∈ sels, (getTemplate ts s.template_id).isSome → s.meal_type ∈ SLOTS

instance validSlots_decidable (ts : List MenuItemTemplate)
    (sels : List StudentSelection) : Decidable (validSlots ts sels) := by
  unfold validSlots
  infer_instance

lemma processSelection_none (ts : List MenuItemTemplate) (st : LoopState)
    (s : StudentSelection) (ht : getTemplate ts s.template_id = none) :
    processSelection ts st s = Except.ok st := by
  simp [processSelection, ht]

lemma processSelection_mk (ts : List MenuItemTemplate) (t : MenuItemTemplate)
    (f : String → ℚ) (g : String → List String) (h : String → String → ℚ)
    (s : StudentSelection) (ht : getTemplate ts s.template_id = some t) :
    processSelection ts (mkNDict f, mkSDict g, mkMTDict h) s =
      if s.meal_type ∈ SLOTS then
        Except.ok (mkNDict (fun n => f n + templateField n t),
          mkSDict (fun x => if x = s.meal_type then g x ++ [t.name] else g x),
          mkMTDict (fun x n => if x = s.meal_type then h x n + templateField n t else h x n))
      else Except.error (AnalyzeError.keyError s.meal_type) := by
  by_cases hsl : s.meal_type ∈ SLOTS
  · have hd1 : dmodify (mkSDict g) s.meal_type (fun items => items ++ [t.name]) =
        some (mkSDict (fun x => if x = s.meal_type then g x ++ [t.name] else g x)) := by
      unfold mkSDict
      rw [dmodify_map_keys SLOTS SLOTS_nodup, if_pos hsl]
    have hd2 : dget (mkMTDict h) s.meal_type = some (mkNDict (h s.meal_type)) := by
      unfold mkMTDict
      rw [dget_map_keys SLOTS, if_pos hsl]
    have hd3 : dmodify (mkMTDict h) s.meal_type
          (fun _ => mkNDict (fun n => h s.meal_type n + templateField n t)) =
        some (mkMTDict (fun x n =>
          if x = s.meal_type then h x n + templateField n t else h x n)) := by
      unfold mkMTDict
      rw [dmodify_map_keys SLOTS SLOTS_nodup, if_pos hsl]
      congr 1
      refine List.map_congr_left (fun x _ => ?_)
      by_cases hx : x = s.meal_type
      · subst hx; simp
      · simp [hx]
    simp only [processSelection, ht, hd1, addTemplateNutr_mk, hd2, hd3, if_pos hsl]
  · have hd1 : dmodify (mkSDict g) s.meal_type (fun items => items ++ [t.name]) = none := by
      unfold mkSDict
      rw [dmodify_map_keys SLOTS SLOTS_nodup, if_neg hsl]
    simp only [processSelection, ht, hd1, if_neg hsl]

end BlueMeal

namespace BlueMeal

lemma resolvedAll_cons_none (ts : List MenuItemTemplate) (s : StudentSelection)
    (ss : List StudentSelection) (hget : getTemplate ts s.template_id = none) :
    resolvedAll ts (s :: ss) = resolvedAll ts ss := by
  simp [resolvedAll, List.filterMap_cons, hget]

lemma resolvedAll_cons_some (ts : List MenuItemTemplate) (s : StudentSelection)
    (ss : List StudentSelection) (t : MenuItemTemplate)
    (hget : getTemplate ts s.template_id = some t) :
    resolvedAll ts (s :: ss) = t :: resolvedAll ts ss := by
  simp [resolvedAll, List.filterMap_cons, hget]

lemma resolvedFor_cons_none (ts : List MenuItemTemplate) (s : StudentSelection)
    (ss : List StudentSelection) (sl : String)
    (hget : getTemplate ts s.template_id = none) :
    resolvedFor ts (s :: ss) sl = resolvedFor ts ss sl := by
  simp only [resolvedFor, List.filterMap_cons, hget, ite_self]

lemma resolvedFor_cons_some (ts : List MenuItemTemplate) (s : StudentSelection)
    (ss : List StudentSelection) (t : MenuItemTemplate) (sl : String)
    (hget : getTemplate ts s.template_id = some t) :
    resolvedFor ts (s :: ss) sl =
      if s.meal_type = sl then t :: resolvedFor ts ss sl else resolvedFor ts ss sl := by
  by_cases hx : s.meal_type = sl <;>
    simp [resolvedFor, List.filterMap_cons, hget, hx]

lemma sumField_nil (n : String) : sumField n [] = 0 := rfl

lemma sumField_cons (n : String) (t : MenuItemTemplate) (l : List MenuItemTemplate) :
    sumField n (t :: l) = templateField n t + sumField n l := by
  simp [sumField]

/-- The `for s in selections` loop on a state of the canonical dict shapes,
when every resolvable row names a valid slot. -/
lemma foldlM_processSelection (ts : List MenuItemTemplate)
    (sels : List StudentSelection) (f : String → ℚ) (g : String → List String)
    (h : String → String → ℚ) (hv : validSlots ts sels) :
    sels.foldlM (processSelection ts) (mkNDict f, mkSDict g, mkMTDict h) =
      Except.ok (mkNDict (fun n => f n + sumField n (resolvedAll ts sels)),
        mkSDict (fun x => g x ++ namesFor ts sels x),
        mkMTDict (fun x n => h x n + sumField n (resolvedFor ts sels x))) := by
  induction sels generalizing f g h with
  | nil =>
    have h1 : mkNDict (fun n => f n + sumField n (resolvedAll ts [])) = mkNDict f :=
      mkNDict_congr (fun n => by simp [sumField, resolvedAll])
    have h2 : mkSDict (fun x => g x ++ namesFor ts [] x) = mkSDict g :=
      congrArg mkSDict (funext fun x => by simp [namesFor, resolvedFor])
    have h3 : mkMTDict (fun x n => h x n + sumField n (resolvedFor ts [] x)) = mkMTDict h :=
      congrArg mkMTDict (funext fun x => funext fun n => by simp [sumField, resolvedFor])
    rw [List.foldlM_nil, h1, h2, h3]
    rfl
  | cons s ss ih =>
    have hv' : validSlots ts ss := fun x hx => hv x (List.mem_cons_of_mem _ hx)
    rw [List.foldlM_cons]
    rcases hget : getTemplate ts s.template_id with _ | t
    · rw [processSelection_none ts _ s hget]
      show List.foldlM (processSelection ts) (mkNDict f, mkSDict g, mkMTDict h) ss = _
      rw [ih f g h hv']
      have e2 : ∀ x, namesFor ts (s :: ss) x = namesFor ts ss x := fun x => by
        simp [namesFor, resolvedFor_cons_none ts s ss x hget]
      rw [resolvedAll_cons_none ts s ss hget]
      have h2 : mkSDict (fun x => g x ++ namesFor ts ss x) =
          mkSDict (fun x => g x ++ namesFor ts (s :: ss) x) :=
        congrArg mkSDict (funext fun x => by rw [e2])
      have h3 : mkMTDict (fun x n => h x n + sumField n (resolvedFor ts ss x)) =
          mkMTDict (fun x n => h x n + sumField n (resolvedFor ts (s :: ss) x)) :=
        congrArg mkMTDict (funext fun x => funext fun n => by
          rw [resolvedFor_cons_none ts s ss x hget])
      rw [h2, h3]
    · have hsl : s.meal_type ∈ SLOTS :=
        hv s (List.mem_cons_self s ss) (by simp [hget])
      rw [processSelection_mk ts t f g h s hget, if_pos hsl]
      show List.foldlM (processSelection ts) _ ss = _
      rw [ih _ _ _ hv']
      have hA : mkNDict (fun n => (f n + templateField n t) + sumField n (resolvedAll ts ss)) =
          mkNDict (fun n => f n + sumField n (resolvedAll ts (s :: ss))) :=
        mkNDict_congr (fun n => by
          rw [resolvedAll_cons_some ts s ss t hget, sumField_cons]; ring)
      have hB : mkSDict (fun x =>
            (if x = s.meal_type then g x ++ [t.name] else g x) ++ namesFor ts ss x) =
          mkSDict (fun x => g x ++ namesFor ts (s :: ss) x) :=
        congrArg mkSDict (funext fun x => by
          unfold namesFor
          rw [resolvedFor_cons_some ts s ss t x hget]
          by_cases hx : x = s.meal_type
          · rw [if_pos hx, if_pos hx.symm]
            simp
          · rw [if_neg hx, if_neg (fun e : s.meal_type = x => hx e.symm)])
      have hC : mkMTDict (fun x n =>
            (if x = s.meal_type then h x n + templateField n t else h x n) +
              sumField n (resolvedFor ts ss x)) =
          mkMTDict (fun x n => h x n + sumField n (resolvedFor ts (s :: ss) x)) :=
        congrArg mkMTDict (funext fun x => funext fun n => by
          rw [resolvedFor_cons_some ts s ss t x hget]
          by_cases hx : x = s.meal_type
          · rw [if_pos hx, if_pos hx.symm, sumField_cons]; ring
          · rw [if_neg hx, if_neg (fun e : s.meal_type = x => hx e.symm)])
      rw [hA, hB, hC]

/-- When some resolvable row names an unknown slot the loop raises. -/
lemma foldlM_processSelection_err (ts : List MenuItemTemplate)
    (sels : List StudentSelection) (f : String → ℚ) (g : String → List String)
    (h : String → String → ℚ) (hv : ¬ validSlots ts sels) :
    ∃ e, sels.foldlM (processSelection ts) (mkNDict f, mkSDict g, mkMTDict h) =
      Except.error e := by
  induction sels generalizing f g h with
  | nil => exact absurd (fun s hs => absurd hs (List.not_mem_nil s)) hv
  | cons s ss ih =>
    rw [List.foldlM_cons]
    rcases hget : getTemplate ts s.template_id with _ | t
    · rw [processSelection_none ts _ s hget]
      have hv' : ¬ validSlots ts ss := fun hvs =>
        hv (fun x hx hres => by
          rcases List.mem_cons.1 hx with rfl | hx'
          · exact absurd hres (by simp [hget])
          · exact hvs x hx' hres)
      exact ih f g h hv'
    · by_cases hsl : s.meal_type ∈ SLOTS
      · rw [processSelection_mk ts t f g h s hget, if_pos hsl]
        have hv' : ¬ validSlots ts ss := fun hvs =>
          hv (fun x hx hres => by
            rcases List.mem_cons.1 hx with rfl | hx'
            · exact hsl
            · exact hvs x hx' hres)
        exact ih _ _ _ hv'
      · rw [processSelection_mk ts t f g h s hget, if_neg hsl]
        exact ⟨AnalyzeError.keyError s.meal_type, rfl⟩

end BlueMeal

namespace BlueMeal

/-! ### The percentage, suggestion and breakdown stages on canonical shapes -/

/-- `DAILY_RECOMMENDED[n]` as a total function on the seven catalog keys
(the default is never reached at those keys). -/
def recOf (n : String) : RecRange := (dget DAILY_RECOMMENDED n).getD ⟨0, 0, ""⟩

/-- `NUTRIENT_BENEFITS[n]` as a total function on the seven catalog keys. -/
def benefitOf (n : String) : BenefitInfo := (dget NUTRIENT_BENEFITS n).getD ⟨"", "", ""⟩

/-- The percentage formula of `analyze_daily_nutrition` for one nutrient. -/
def pctValue (n : String) (v : ℚ) : ℚ :=
  if n = "sugar" ∨ n = "sodium" then min 100 ((v / (recOf n).max) * 100)
  else min 100 ((v / (((recOf n).min + (recOf n).max) / 2)) * 100)

lemma percentagesOf_mk (f : String → ℚ) :
    percentagesOf (mkNDict f) = some (mkNDict (fun n => pctValue n (f n))) := rfl

/-- The warning dict appended for an exceeded `sugar`/`sodium` total. -/
def warnSugg (n : String) : Suggestion :=
  Suggestion.warning n (benefitOf n).impact (benefitOf n).daily_impact []

/-- The deficiency dict appended for a total below the recommended minimum. -/
def defSugg (ts : List MenuItemTemplate) (meals : Dict (List String))
    (n : String) (v : ℚ) : Suggestion :=
  Suggestion.deficiency n.capitalize (round1 v) (recOf n).min (round1 ((recOf n).min - v))
    (recOf n).unit (benefitOf n).benefit (benefitOf n).daily_impact
    ((find_items_high_in_nutrient ts n meals).take 3)

/-- The (zero- or one-element) suggestion list one loop iteration of
`generate_suggestions` appends for nutrient `n` with total `v`. -/
def suggListFor (ts : List MenuItemTemplate) (meals : Dict (List String))
    (n : String) (v : ℚ) : List Suggestion :=
  if n = "sugar" ∨ n = "sodium" then
    (if v > (recOf n).max then [warnSugg n] else [])
  else
    (if v < (recOf n).min then [defSugg ts meals n v] else [])

lemma dget_DR_calories : dget DAILY_RECOMMENDED "calories" = some ⟨1800, 2400, "kcal"⟩ := rfl
lemma dget_DR_protein : dget DAILY_RECOMMENDED "protein" = some ⟨50, 150, "g"⟩ := rfl
lemma dget_DR_carbs : dget DAILY_RECOMMENDED "carbs" = some ⟨225, 325, "g"⟩ := rfl
lemma dget_DR_fats : dget DAILY_RECOMMENDED "fats" = some ⟨44, 78, "g"⟩ := rfl
lemma dget_DR_sugar : dget DAILY_RECOMMENDED "sugar" = some ⟨0, 50, "g"⟩ := rfl
lemma dget_DR_fibre : dget DAILY_RECOMMENDED "fibre" = some ⟨25, 38, "g"⟩ := rfl
lemma dget_DR_sodium : dget DAILY_RECOMMENDED "sodium" = some ⟨0, 2300, "mg"⟩ := rfl

lemma dget_NB_isSome (n : String) (hn : n ∈ NUTRIENTS) :
    dget NUTRIENT_BENEFITS n = some (benefitOf n) := by
  fin_cases hn <;> rfl

lemma suggestionForNutrient_eq (ts : List MenuItemTemplate) (meals : Dict (List String))
    (acc : List Suggestion) (n : String) (v : ℚ) (hn : n ∈ NUTRIENTS) :
    suggestionForNutrient ts meals acc (n, v) = some (acc ++ suggListFor ts meals n v) := by
  have hb := dget_NB_isSome n hn
  fin_cases hn <;>
    · simp only [suggestionForNutrient, suggListFor, defSugg, warnSugg, recOf,
        dget_DR_calories, dget_DR_protein, dget_DR_carbs, dget_DR_fats, dget_DR_sugar,
        dget_DR_fibre, dget_DR_sodium, hb, Option.getD_some, Option.some_bind] at *
      split_ifs <;> simp_all

end BlueMeal

namespace BlueMeal

lemma generate_suggestions_mk (ts : List MenuItemTemplate) (meals : Dict (List String))
    (f : String → ℚ) :
    generate_suggestions ts (mkNDict f) meals =
      some (NUTRIENTS.flatMap (fun n => suggListFor ts meals n (f n))) := by
  have h1 : ∀ acc v, suggestionForNutrient ts meals acc ("calories", v) =
      some (acc ++ suggListFor ts meals "calories" v) :=
    fun acc v => suggestionForNutrient_eq ts meals acc "calories" v (by decide)
  have h2 : ∀ acc v, suggestionForNutrient ts meals acc ("protein", v) =
      some (acc ++ suggListFor ts meals "protein" v) :=
    fun acc v => suggestionForNutrient_eq ts meals acc "protein" v (by decide)
  have h3 : ∀ acc v, suggestionForNutrient ts meals acc ("carbs", v) =
      some (acc ++ suggListFor ts meals "carbs" v) :=
    fun acc v => suggestionForNutrient_eq ts meals acc "carbs" v (by decide)
  have h4 : ∀ acc v, suggestionForNutrient ts meals acc ("fats", v) =
      some (acc ++ suggListFor ts meals "fats" v) :=
    fun acc v => suggestionForNutrient_eq ts meals acc "fats" v (by decide)
  have h5 : ∀ acc v, suggestionForNutrient ts meals acc ("sugar", v) =
      some (acc ++ suggListFor ts meals "sugar" v) :=
    fun acc v => suggestionForNutrient_eq ts meals acc "sugar" v (by decide)
  have h6 : ∀ acc v, suggestionForNutrient ts meals acc ("fibre", v) =
      some (acc ++ suggListFor ts meals "fibre" v) :=
    fun acc v => suggestionForNutrient_eq ts meals acc "fibre" v (by decide)
  have h7 : ∀ acc v, suggestionForNutrient ts meals acc ("sodium", v) =
      some (acc ++ suggListFor ts meals "sodium" v) :=
    fun acc v => suggestionForNutrient_eq ts meals acc "sodium" v (by decide)
  unfold generate_suggestions mkNDict NUTRIENTS
  simp only [List.map_cons, List.map_nil, List.foldlM_cons, List.foldlM_nil,
    h1, h2, h3, h4, h5, h6, h7, Option.some_bind, List.flatMap_cons, List.flatMap_nil]
  simp [List.append_assoc]

/-- The advisory list attached to one populated meal slot, as a function of
its per-meal totals. -/
def advListOf (mt : String → ℚ) : List MealAdvisory :=
  (if mt "protein" < 15 then [MealAdvisory.low_protein (mt "protein")] else []) ++
  (if mt "fibre" < 5 then [MealAdvisory.low_fibre (mt "fibre")] else []) ++
  (if mt "sugar" > 15 then [MealAdvisory.high_sugar (mt "sugar")] else [])

lemma mealAdvisories_mk (mt : String → ℚ) :
    mealAdvisories (mkNDict mt) = some (advListOf mt) := rfl

lemma dget_mkMTDict (h : String → String → ℚ) (sl : String) (hsl : sl ∈ SLOTS) :
    dget (mkMTDict h) sl = some (mkNDict (h sl)) := by
  unfold mkMTDict
  rw [dget_map_keys SLOTS, if_pos hsl]

lemma meal_breakdown_of_mk (g : String → List String) (h : String → String → ℚ) :
    meal_breakdown_of (mkSDict g) (mkMTDict h) =
      some (SLOTS.filterMap (fun sl =>
        if (g sl).isEmpty then none
        else some (sl, ⟨g sl, mkNDict (h sl), advListOf (h sl)⟩))) := by
  have d1 := dget_mkMTDict h "breakfast" (by decide)
  have d2 := dget_mkMTDict h "lunch" (by decide)
  have d3 := dget_mkMTDict h "dinner" (by decide)
  unfold meal_breakdown_of mkSDict SLOTS
  simp only [List.map_cons, List.map_nil, List.foldlM_cons, List.foldlM_nil,
    List.filterMap_cons, List.filterMap_nil]
  by_cases h1 : (g "breakfast").isEmpty <;> by_cases h2 : (g "lunch").isEmpty <;>
    by_cases h3 : (g "dinner").isEmpty <;>
    simp [h1, h2, h3, d1, d2, d3, mealAdvisories_mk]

end BlueMeal

namespace BlueMeal

/-! ### The full analysis on a successful run -/

/-- The closed form of the `DailyAnalysis` returned by
`analyze_daily_nutrition` on a successful, non-absent run. -/
def analysisOf (db : DB) (student_id date : Nat) : DailyAnalysis :=
  let ts := db.templates
  let sels := keySels db student_id date
  { totals := mkNDict (fun n => sumField n (resolvedAll ts sels)),
    percentages := mkNDict (fun n => pctValue n (sumField n (resolvedAll ts sels))),
    meals := mkSDict (fun sl => namesFor ts sels sl),
    suggestions := NUTRIENTS.flatMap (fun n =>
      suggListFor ts (mkSDict (fun sl => namesFor ts sels sl)) n
        (sumField n (resolvedAll ts sels))),
    meal_breakdown := SLOTS.filterMap (fun sl =>
      if (namesFor ts sels sl).isEmpty then none
      else some (sl, ⟨namesFor ts sels sl,
        mkNDict (fun n => sumField n (resolvedFor ts sels sl)),
        advListOf (fun n => sumField n (resolvedFor ts sels sl))⟩)) }

lemma analyzeAssemble_mk (ts : List MenuItemTemplate) (f : String → ℚ)
    (g : String → List String) (h : String → String → ℚ) :
    analyzeAssemble ts (mkNDict f) (mkSDict g) (mkMTDict h) =
      Except.ok (some
        { totals := mkNDict f,
          percentages := mkNDict (fun n => pctValue n (f n)),
          meals := mkSDict g,
          suggestions := NUTRIENTS.flatMap (fun n => suggListFor ts (mkSDict g) n (f n)),
          meal_breakdown := SLOTS.filterMap (fun sl =>
            if (g sl).isEmpty then none
            else some (sl, ⟨g sl, mkNDict (h sl), advListOf (h sl)⟩)) }) := by
  unfold analyzeAssemble
  rw [percentagesOf_mk, generate_suggestions_mk, meal_breakdown_of_mk]

theorem analyze_spec (db : DB) (student_id date : Nat)
    (hne : keySels db student_id date ≠ [])
    (hv : validSlots db.templates (keySels db student_id date)) :
    analyze_daily_nutrition db student_id date =
      Except.ok (some (analysisOf db student_id date)) := by
  show (if (keySels db student_id date).isEmpty then Except.ok none
    else match (keySels db student_id date).foldlM (processSelection db.templates)
        (zeroNutr, initMeals, initMealTotals) with
    | Except.error e => Except.error e
    | Except.ok (totals, meals, meal_totals) =>
      analyzeAssemble db.templates totals meals meal_totals) = _
  rw [if_neg (by simp [List.isEmpty_iff, hne])]
  rw [zeroNutr_eq, initMeals_eq, initMealTotals_eq,
    foldlM_processSelection db.templates (keySels db student_id date) _ _ _ hv]
  show analyzeAssemble db.templates
      (mkNDict (fun n => (0 : ℚ) + sumField n (resolvedAll db.templates (keySels db student_id date))))
      (mkSDict (fun x => [] ++ namesFor db.templates (keySels db student_id date) x))
      (mkMTDict (fun x n => (0 : ℚ) + sumField n (resolvedFor db.templates (keySels db student_id date) x))) = _
  have e1 : mkNDict (fun n => (0 : ℚ) + sumField n (resolvedAll db.templates (keySels db student_id date))) =
      mkNDict (fun n => sumField n (resolvedAll db.templates (keySels db student_id date))) :=
    mkNDict_congr (fun n => zero_add _)
  have e3 : mkMTDict (fun x n => (0 : ℚ) + sumField n (resolvedFor db.templates (keySels db student_id date) x)) =
      mkMTDict (fun x n => sumField n (resolvedFor db.templates (keySels db student_id date) x)) :=
    congrArg mkMTDict (funext fun x => funext fun n => zero_add _)
  rw [e1, e3, analyzeAssemble_mk]
  rfl

end BlueMeal

namespace BlueMeal

lemma analyze_empty (db : DB) (student_id date : Nat)
    (hne : keySels db student_id date = []) :
    analyze_daily_nutrition db student_id date = Except.ok none := by
  show (if (keySels db student_id date).isEmpty then Except.ok none else _) = _
  rw [if_pos (by simp [List.isEmpty_iff, hne])]

lemma analyze_err (db : DB) (student_id date : Nat)
    (hne : keySels db student_id date ≠ [])
    (hv : ¬ validSlots db.templates (keySels db student_id date)) :
    ∃ e, analyze_daily_nutrition db student_id date = Except.error e := by
  obtain ⟨e, he⟩ := foldlM_processSelection_err db.templates (keySels db student_id date)
    (fun _ => 0) (fun _ => ([] : List String)) (fun _ _ => 0) hv
  refine ⟨e, ?_⟩
  show (if (keySels db student_id date).isEmpty then Except.ok none
    else match (keySels db student_id date).foldlM (processSelection db.templates)
        (zeroNutr, initMeals, initMealTotals) with
    | Except.error e => Except.error e
    | Except.ok (totals, meals, meal_totals) =>
      analyzeAssemble db.templates totals meals meal_totals) = _
  rw [if_neg (by simp [List.isEmpty_iff, hne]), zeroNutr_eq, initMeals_eq,
    initMealTotals_eq, he]

lemma analyze_inv (db : DB) (student_id date : Nat) (a : DailyAnalysis)
    (h : analyze_daily_nutrition db student_id date = Except.ok (some a)) :
    keySels db student_id date ≠ [] ∧
      validSlots db.templates (keySels db student_id date) ∧
      a = analysisOf db student_id date := by
  by_cases hne : keySels db student_id date = []
  · rw [analyze_empty db student_id date hne] at h
    simp at h
  · by_cases hv : validSlots db.templates (keySels db student_id date)
    · rw [analyze_spec db student_id date hne hv] at h
      exact ⟨hne, hv, (Option.some.inj (Except.ok.inj h)).symm⟩
    · obtain ⟨e, he⟩ := analyze_err db student_id date hne hv
      rw [he] at h
      simp at h

/-! ### Concrete fixtures for the closed checks -/

/-- A benign catalog item. -/
def tEgg : MenuItemTemplate := ⟨1, "Egg", 78, 6, 1, 5, 1, 0, 62⟩

/-- A template with a negative nutrient value: `add_menu_template` accepts
such values (no sign check). -/
def tNeg : MenuItemTemplate := ⟨2, "Mystery Shake", -100, 0, 0, 0, 0, 0, 0⟩

/-- Student 7 selected `Egg` for breakfast on day 1. -/
def dbEgg : DB := ⟨[tEgg], [⟨7, 1, "breakfast", some 1⟩]⟩

/-- Student 7 selected the negative-calorie item for breakfast on day 1. -/
def dbNeg : DB := ⟨[tNeg], [⟨7, 1, "breakfast", some 2⟩]⟩

/-- Student 7 has one selection row whose template id resolves to nothing. -/
def dbUnresolved : DB := ⟨[], [⟨7, 1, "breakfast", some 5⟩]⟩

/-- A store with the `Egg` template and no selections yet. -/
def dbCatalog : DB := ⟨[tEgg], []⟩

/-- The `percentages[n]` of a present analysis, `none` otherwise. -/
def percentageProbe (db : DB) (student_id date : Nat) (n : String) : Option ℚ :=
  match analyze_daily_nutrition db student_id date with
  | Except.ok (some a) => dget a.percentages n
  | _ => none

/-- The `meals[sl]` of a present analysis, `none` otherwise. -/
def mealsProbe (db : DB) (student_id date : Nat) (sl : String) : Option (List String) :=
  match analyze_daily_nutrition db student_id date with
  | Except.ok (some a) => dget a.meals sl
  | _ => none

end BlueMeal

namespace BlueMeal

/-- The key of the uncaught `KeyError`, when the analysis raised one. -/
def analyzeErrProbe (db : DB) (student_id date : Nat) : Option String :=
  match analyze_daily_nutrition db student_id date with
  | Except.error (AnalyzeError.keyError k) => some k
  | _ => none

end BlueMeal

namespace BlueMeal

lemma analysisOf_totals (db : DB) (student_id date : Nat) :
    (analysisOf db student_id date).totals =
      mkNDict (fun n => sumField n (resolvedAll db.templates (keySels db student_id date))) := rfl

lemma analysisOf_percentages (db : DB) (student_id date : Nat) :
    (analysisOf db student_id date).percentages =
      mkNDict (fun n =>
        pctValue n (sumField n (resolvedAll db.templates (keySels db student_id date)))) := rfl

lemma analysisOf_meals (db : DB) (student_id date : Nat) :
    (analysisOf db student_id date).meals =
      mkSDict (fun sl => namesFor db.templates (keySels db student_id date) sl) := rfl

lemma analysisOf_suggestions (db : DB) (student_id date : Nat) :
    (analysisOf db student_id date).suggestions =
      NUTRIENTS.flatMap (fun n =>
        suggListFor db.templates
          (mkSDict (fun sl => namesFor db.templates (keySels db student_id date) sl)) n
          (sumField n (resolvedAll db.templates (keySels db student_id date)))) := rfl

lemma analysisOf_meal_breakdown (db : DB) (student_id date : Nat) :
    (analysisOf db student_id date).meal_breakdown =
      SLOTS.filterMap (fun sl =>
        if (namesFor db.templates (keySels db student_id date) sl).isEmpty then none
        else some (sl, ⟨namesFor db.templates (keySels db student_id date) sl,
          mkNDict (fun n => sumField n (resolvedFor db.templates (keySels db student_id date) sl)),
          advListOf (fun n =>
            sumField n (resolvedFor db.templates (keySels db student_id date) sl))⟩)) := rfl

/-- C6: `analyze_daily_nutrition(student_id, date)` returns absent
(`Except.ok none`) iff the student has zero selection records for that
date; in particular with no selections it returns absent rather than an
empty totals structure. -/
theorem C6_absent_iff_no_selections :
    ∀ (db : DB) (student_id date : Nat),
      analyze_daily_nutrition db student_id date = Except.ok none ↔
        keySels db student_id date = [] := by
  intro db student_id date
  constructor
  · intro h
    by_contra hne
    by_cases hv : validSlots db.templates (keySels db student_id date)
    · rw [analyze_spec db student_id date hne hv] at h
      simp at h
    · obtain ⟨e, he⟩ := analyze_err db student_id date hne hv
      rw [he] at h
      simp at h
  · exact analyze_empty db student_id date

unseal Rat.mul Rat.add Rat.sub Rat.inv in
/-- C9: the analysis completes (does not raise) iff every resolvable
selection row of that student and day names one of the three meal slots;
`student_select` stores a row under the arbitrary slot key `"snack1"` taken
from the request, and analysing it dies with an uncaught `KeyError` on
`"snack1"` instead of returning a result. -/
theorem C9_analysis_total_iff_valid_slots :
    (∀ (db : DB) (student_id date : Nat),
      (∃ v, analyze_daily_nutrition db student_id date = Except.ok v) ↔
        validSlots db.templates (keySels db student_id date)) ∧
    analyzeErrProbe (student_select dbCatalog 7 1 [("snack1", ["Egg"])]) 7 1 =
      some "snack1" := by
  constructor
  · intro db student_id date
    constructor
    · rintro ⟨v, hok⟩
      by_contra hnv
      have hne : keySels db student_id date ≠ [] := by
        intro he
        exact hnv (fun s hs => by rw [he] at hs; exact absurd hs (List.not_mem_nil s))
      obtain ⟨e, he⟩ := analyze_err db student_id date hne hnv
      rw [he] at hok
      simp at hok
    · intro hv
      by_cases hne : keySels db student_id date = []
      · exact ⟨none, analyze_empty db student_id date hne⟩
      · exact ⟨some (analysisOf db student_id date),
          analyze_spec db student_id date hne hv⟩
  · decide

/-- C10: when selection rows exist for the day but none resolves to a
template, the analysis is present (not absent), all seven totals and
percentages are zero, and the meal breakdown is empty. -/
theorem C10_unresolvable_rows_present_zero
    (db : DB) (student_id date : Nat)
    (hne : keySels db student_id date ≠ [])
    (hnores : ∀ s ∈ keySels db student_id date,
      getTemplate db.templates s.template_id = none) :
    ∃ a, analyze_daily_nutrition db student_id date = Except.ok (some a) ∧
      a.totals = NUTRIENTS.map (fun n => (n, 0)) ∧
      a.percentages = NUTRIENTS.map (fun n => (n, 0)) ∧
      a.meal_breakdown = [] := by
  have hv : validSlots db.templates (keySels db student_id date) := fun s hs hres => by
    rw [hnores s hs] at hres
    simp at hres
  have hres : resolvedAll db.templates (keySels db student_id date) = [] := by
    unfold resolvedAll
    rw [List.filterMap_eq_nil]
    exact hnores
  have hnames : ∀ sl, namesFor db.templates (keySels db student_id date) sl = [] := by
    intro sl
    unfold namesFor resolvedFor
    rw [show (keySels db student_id date).filterMap (fun s =>
        if s.meal_type = sl then getTemplate db.templates s.template_id else none) =
        [] from by
      rw [List.filterMap_eq_nil]
      intro s hs
      rw [hnores s hs, ite_self]]
    rfl
  refine ⟨analysisOf db student_id date,
    analyze_spec db student_id date hne hv, ?_, ?_, ?_⟩
  · rw [analysisOf_totals]
    unfold mkNDict
    exact List.map_congr_left (fun n _ => by rw [hres]; rfl)
  · rw [analysisOf_percentages]
    unfold mkNDict
    refine List.map_congr_left (fun n hn => ?_)
    rw [hres]
    have hz : sumField n ([] : List MenuItemTemplate) = 0 := rfl
    simp only [hz]
    fin_cases hn <;>
      norm_num [pctValue, recOf, dget_DR_calories, dget_DR_protein, dget_DR_carbs,
        dget_DR_fats, dget_DR_sugar, dget_DR_fibre, dget_DR_sodium]
  · rw [analysisOf_meal_breakdown]
    rw [List.filterMap_eq_nil]
    intro sl _
    rw [hnames sl]
    rfl

/-- C10 at a concrete store: one selection row whose template id resolves to
nothing. -/
theorem C10_witness :
    keySels dbUnresolved 7 1 ≠ [] ∧
    (∀ s ∈ keySels dbUnresolved 7 1,
      getTemplate dbUnresolved.templates s.template_id = none) ∧
    (∃ a, analyze_daily_nutrition dbUnresolved 7 1 = Except.ok (some a) ∧
      a.totals = NUTRIENTS.map (fun n => (n, 0)) ∧
      a.percentages = NUTRIENTS.map (fun n => (n, 0)) ∧
      a.meal_breakdown = []) :=
  ⟨by decide, by decide,
    C10_unresolvable_rows_present_zero dbUnresolved 7 1 (by decide) (by decide)⟩

end BlueMeal

namespace BlueMeal

/-! ### C2: the percentage formula and its range -/

lemma pctValue_le_100 (n : String) (v : ℚ) : pctValue n v ≤ 100 := by
  unfold pctValue
  split_ifs <;> exact min_le_left _ _

lemma pctValue_nonneg (n : String) (v : ℚ) (hn : n ∈ NUTRIENTS) (hv : 0 ≤ v) :
    0 ≤ pctValue n v := by
  fin_cases hn <;>
    · norm_num [pctValue, recOf, dget_DR_calories, dget_DR_protein, dget_DR_carbs,
        dget_DR_fats, dget_DR_sugar, dget_DR_fibre, dget_DR_sodium]
      positivity

/-- The non-negativity of all seven fields of a template: the property §3 of
the spec assumes of every `FoodTemplate` but `add_menu_template` does not
check. -/
def nonnegTemplate (t : MenuItemTemplate) : Prop :=
  0 ≤ t.calories ∧ 0 ≤ t.protein ∧ 0 ≤ t.carbs ∧ 0 ≤ t.fats ∧
    0 ≤ t.sugar ∧ 0 ≤ t.fibre ∧ 0 ≤ t.sodium

lemma templateField_nonneg (n : String) (t : MenuItemTemplate)
    (h : nonnegTemplate t) : 0 ≤ templateField n t := by
  obtain ⟨h1, h2, h3, h4, h5, h6, h7⟩ := h
  unfold templateField
  split_ifs <;> try assumption
  norm_num

lemma sumField_nonneg (n : String) (l : List MenuItemTemplate)
    (h : ∀ t ∈ l, 0 ≤ templateField n t) : 0 ≤ sumField n l := by
  unfold sumField
  refine List.sum_nonneg ?_
  intro x hx
  rw [List.mem_map] at hx
  obtain ⟨t, ht, rfl⟩ := hx
  exact h t ht

lemma mem_resolvedAll (ts : List MenuItemTemplate) (sels : List StudentSelection)
    (t : MenuItemTemplate) (h : t ∈ resolvedAll ts sels) : t ∈ ts := by
  unfold resolvedAll at h
  rw [List.mem_filterMap] at h
  obtain ⟨s, _, hs⟩ := h
  rcases hid : s.template_id with _ | tid
  · rw [hid] at hs
    simp [getTemplate] at hs
  · rw [hid] at hs
    simp only [getTemplate] at hs
    exact List.mem_of_find?_eq_some hs

/-- C2 amended: the reported percentage equals the spec formula of the total
(`min(100, total / spec.max * 100)` for sugar/sodium and
`min(100, total / midpoint * 100)` otherwise), and is always at most 100;
it is at least 0 only when the total is non-negative — which holds whenever
every stored template has non-negative fields, a condition the code does not
enforce, so the unconditional lower bound of the claim fails. -/
theorem C2_percentage_formula (db : DB) (student_id date : Nat) (a : DailyAnalysis)
    (h : analyze_daily_nutrition db student_id date = Except.ok (some a))
    (n : String) (v p : ℚ)
    (hv : dget a.totals n = some v) (hp : dget a.percentages n = some p) :
    p = pctValue n v ∧ p ≤ 100 ∧ (0 ≤ v → 0 ≤ p) ∧
      ((∀ t ∈ db.templates, nonnegTemplate t) → 0 ≤ p ∧ p ≤ 100) := by
  obtain ⟨hne, hvs, rfl⟩ := analyze_inv db student_id date a h
  rw [analysisOf_totals, dget_mkNDict] at hv
  rw [analysisOf_percentages, dget_mkNDict] at hp
  by_cases hn : n ∈ NUTRIENTS
  · rw [if_pos hn] at hv hp
    have hveq : v = sumField n (resolvedAll db.templates (keySels db student_id date)) :=
      (Option.some.inj hv).symm
    have hpeq : p = pctValue n v := by
      rw [hveq]
      exact (Option.some.inj hp).symm
    refine ⟨hpeq, by rw [hpeq]; exact pctValue_le_100 n v,
      fun h0 => by rw [hpeq]; exact pctValue_nonneg n v hn h0, fun hT => ?_⟩
    have h0 : 0 ≤ v := by
      rw [hveq]
      refine sumField_nonneg n _ (fun t ht => templateField_nonneg n t ?_)
      exact hT t (mem_resolvedAll _ _ t ht)
    exact ⟨by rw [hpeq]; exact pctValue_nonneg n v hn h0,
      by rw [hpeq]; exact pctValue_le_100 n v⟩
  · rw [if_neg hn] at hv
    simp at hv

end BlueMeal

namespace BlueMeal

unseal Rat.mul Rat.add Rat.sub Rat.inv in
/-- C2 as stated is false: a stored template with `calories = -100` (which
`add_menu_template` accepts) gives a reported calories percentage of
`-100/21`, which is not in `[0, 100]`. -/
theorem C2_counterexample :
    percentageProbe dbNeg 7 1 "calories" = some (-100 / 21) ∧
      ¬ ((0 : ℚ) ≤ -100 / 21) := by
  refine ⟨by decide, by norm_num⟩

unseal Rat.mul Rat.add Rat.sub Rat.inv in
/-- C2 at a concrete benign store: protein total 6 of the `Egg` selection. -/
theorem C2_witness :
    (6 : ℚ) = pctValue "protein" 6 ∧ (6 : ℚ) ≤ 100 ∧
      ((0 : ℚ) ≤ 6 → (0 : ℚ) ≤ 6) ∧
      ((∀ t ∈ dbEgg.templates, nonnegTemplate t) → (0 : ℚ) ≤ 6 ∧ (6 : ℚ) ≤ 100) :=
  C2_percentage_formula dbEgg 7 1 (analysisOf dbEgg 7 1)
    (analyze_spec dbEgg 7 1 (by decide) (by decide)) "protein" 6 6
    (by decide) (by decide)

/-! ### C3: which keys the result dicts hold -/

lemma map_fst_map_pair {α : Type} (keys : List String) (f : String → α) :
    ((keys.map (fun k => (k, f k))).map Prod.fst) = keys := by
  induction keys with
  | nil => rfl
  | cons k ks ih => simp [ih]

lemma dget_isSome_iff {α : Type} (d : Dict α) (k : String) :
    (dget d k).isSome ↔ k ∈ d.map Prod.fst := by
  induction d with
  | nil => simp [dget]
  | cons p ps ih =>
    obtain ⟨k1, v1⟩ := p
    by_cases h : k1 = k
    · subst h
      simp [dget_cons_self]
    · rw [dget_cons_ne _ _ _ _ h, List.map_cons, ih]
      rw [List.mem_cons]
      exact ⟨fun hk => Or.inr hk, fun hk => hk.resolve_left (fun e => h e.symm)⟩

lemma map_fst_filterMap_if {β : Type} (keys : List String) (c : String → Bool)
    (e : String → β) :
    (keys.filterMap (fun k => if c k then none else some (k, e k))).map Prod.fst =
      keys.filter (fun k => !(c k)) := by
  induction keys with
  | nil => rfl
  | cons k ks ih => by_cases h : c k <;> simp [List.filterMap_cons, h, ih]

lemma mem_keySels (db : DB) (student_id date : Nat) (s : StudentSelection) :
    s ∈ keySels db student_id date ↔
      s ∈ db.selections ∧ s.student_id = student_id ∧ s.date = date := by
  unfold keySels
  rw [List.mem_filter]
  simp [Bool.and_eq_true, beq_iff_eq, and_assoc]

lemma namesFor_ne_nil_iff (ts : List MenuItemTemplate) (sels : List StudentSelection)
    (sl : String) :
    namesFor ts sels sl ≠ [] ↔
      ∃ s ∈ sels, s.meal_type = sl ∧ (getTemplate ts s.template_id).isSome := by
  unfold namesFor resolvedFor
  rw [ne_eq, List.map_eq_nil_iff, List.filterMap_eq_nil]
  push_neg
  constructor
  · rintro ⟨s, hs, hnone⟩
    refine ⟨s, hs, ?_⟩
    by_cases hm : s.meal_type = sl
    · rw [if_pos hm] at hnone
      exact ⟨hm, Option.ne_none_iff_isSome.1 hnone⟩
    · rw [if_neg hm] at hnone
      exact absurd rfl hnone
  · rintro ⟨s, hs, hm, hres⟩
    exact ⟨s, hs, by rw [if_pos hm]; exact Option.ne_none_iff_isSome.2 hres⟩

/-- C3 amended: `totals` and `percentages` always carry exactly the seven
tracked nutrients; `meal_breakdown` carries exactly the slots with at least
one resolvable selection; but `meals` always carries all three slot keys
(`breakfast`, `lunch`, `dinner`) — possibly with empty item lists — rather
than only the populated ones. -/
theorem C3_result_keys (db : DB) (student_id date : Nat) (a : DailyAnalysis)
    (h : analyze_daily_nutrition db student_id date = Except.ok (some a)) :
    a.totals.map Prod.fst = NUTRIENTS ∧
    a.percentages.map Prod.fst = NUTRIENTS ∧
    a.meals.map Prod.fst = SLOTS ∧
    (∀ sl : String, (dget a.meal_breakdown sl).isSome ↔
      ∃ s ∈ db.selections, s.student_id = student_id ∧ s.date = date ∧
        s.meal_type = sl ∧ (getTemplate db.templates s.template_id).isSome) := by
  obtain ⟨hne, hvs, rfl⟩ := analyze_inv db student_id date a h
  refine ⟨by rw [analysisOf_totals]; exact map_fst_map_pair NUTRIENTS _,
    by rw [analysisOf_percentages]; exact map_fst_map_pair NUTRIENTS _,
    by rw [analysisOf_meals]; exact map_fst_map_pair SLOTS _, fun sl => ?_⟩
  rw [analysisOf_meal_breakdown, dget_isSome_iff,
    map_fst_filterMap_if SLOTS
      (fun sl => (namesFor db.templates (keySels db student_id date) sl).isEmpty),
    List.mem_filter]
  constructor
  · rintro ⟨hsl, hne2⟩
    have hnn : namesFor db.templates (keySels db student_id date) sl ≠ [] := by
      simpa [List.isEmpty_iff] using hne2
    obtain ⟨s, hsin, hm, hres⟩ :=
      (namesFor_ne_nil_iff db.templates (keySels db student_id date) sl).1 hnn
    rw [mem_keySels] at hsin
    exact ⟨s, hsin.1, hsin.2.1, hsin.2.2, hm, hres⟩
  · rintro ⟨s, hsin, hsid, hdate, hm, hres⟩
    have hks : s ∈ keySels db student_id date :=
      (mem_keySels db student_id date s).2 ⟨hsin, hsid, hdate⟩
    refine ⟨hm ▸ hvs s hks hres, ?_⟩
    have hnn : namesFor db.templates (keySels db student_id date) sl ≠ [] :=
      (namesFor_ne_nil_iff db.templates (keySels db student_id date) sl).2
        ⟨s, hks, hm, hres⟩
    simpa [List.isEmpty_iff] using hnn

unseal Rat.mul Rat.add Rat.sub Rat.inv in
/-- C3 as stated is false for `meals`: with a single breakfast selection, the
present analysis still carries the key `"lunch"` (with an empty item list)
although no selection of that day names the lunch slot. -/
theorem C3_counterexample :
    mealsProbe dbEgg 7 1 "lunch" = some [] ∧
      dbEgg.selections.all (fun s => !(s.meal_type == "lunch")) = true := by
  refine ⟨by decide, by decide⟩

unseal Rat.mul Rat.add Rat.sub Rat.inv in
/-- C3 amended at the concrete `Egg` store. -/
theorem C3_witness :
    (analysisOf dbEgg 7 1).totals.map Prod.fst = NUTRIENTS ∧
    (analysisOf dbEgg 7 1).percentages.map Prod.fst = NUTRIENTS ∧
    (analysisOf dbEgg 7 1).meals.map Prod.fst = SLOTS ∧
    (∀ sl : String, (dget (analysisOf dbEgg 7 1).meal_breakdown sl).isSome ↔
      ∃ s ∈ dbEgg.selections, s.student_id = 7 ∧ s.date = 1 ∧
        s.meal_type = sl ∧ (getTemplate dbEgg.templates s.template_id).isSome) :=
  C3_result_keys dbEgg 7 1 (analysisOf dbEgg 7 1)
    (analyze_spec dbEgg 7 1 (by decide) (by decide))

end BlueMeal

namespace BlueMeal

/-! ### C5: per-meal advisory thresholds -/

/-- C5: for a populated meal slot, the low-protein advisory fires iff the
meal protein total is strictly below 15 (14.9 fires, 15.0 does not), the
fibre advisory iff the fibre total is strictly below 5, and the high-sugar
advisory iff the sugar total is strictly above 15; the three checks are
independent. -/
theorem C5_meal_advisory_thresholds (mt : Dict ℚ) (p f s : ℚ)
    (l : List MealAdvisory)
    (hp : dget mt "protein" = some p) (hf : dget mt "fibre" = some f)
    (hs : dget mt "sugar" = some s) (hl : mealAdvisories mt = some l) :
    ((MealAdvisory.low_protein p ∈ l) ↔ p < 15) ∧
    ((MealAdvisory.low_fibre f ∈ l) ↔ f < 5) ∧
    ((MealAdvisory.high_sugar s ∈ l) ↔ s > 15) := by
  unfold mealAdvisories at hl
  rw [hp, hf, hs] at hl
  have hl2 : some ((if p < 15 then [MealAdvisory.low_protein p] else []) ++
      (if f < 5 then [MealAdvisory.low_fibre f] else []) ++
      (if s > 15 then [MealAdvisory.high_sugar s] else [])) = some l := hl
  obtain rfl : l = _ := (Option.some.inj hl2).symm
  refine ⟨?_, ?_, ?_⟩ <;> split_ifs <;> simp_all

/-- A lunch with protein 14.9, fibre 3 and sugar 20 (the spec scenario). -/
def mtTriple : Dict ℚ :=
  [("calories", 0), ("protein", 149/10), ("carbs", 0), ("fats", 0),
   ("sugar", 20), ("fibre", 3), ("sodium", 0)]

unseal Rat.mul Rat.add Rat.sub Rat.inv in
/-- C5 at the spec scenario: protein 14.9 fires the advisory. -/
theorem C5_witness :
    ((MealAdvisory.low_protein (149/10) ∈
        [MealAdvisory.low_protein (149/10), MealAdvisory.low_fibre 3,
         MealAdvisory.high_sugar 20]) ↔ (149/10 : ℚ) < 15) ∧
    ((MealAdvisory.low_fibre 3 ∈
        [MealAdvisory.low_protein (149/10), MealAdvisory.low_fibre 3,
         MealAdvisory.high_sugar 20]) ↔ (3 : ℚ) < 5) ∧
    ((MealAdvisory.high_sugar 20 ∈
        [MealAdvisory.low_protein (149/10), MealAdvisory.low_fibre 3,
         MealAdvisory.high_sugar 20]) ↔ (20 : ℚ) > 15) :=
  C5_meal_advisory_thresholds mtTriple (149/10) 3 20 _
    (by decide) (by decide) (by decide) (by decide)

/-! ### C7: replacing selections twice -/

lemma student_select_templates (db : DB) (student_id date : Nat)
    (meals : List (String × List String)) :
    (student_select db student_id date meals).templates = db.templates := rfl

lemma filter_student_select (db : DB) (student_id date : Nat)
    (meals : List (String × List String)) :
    (student_select db student_id date meals).selections.filter
        (fun s => s.student_id == student_id && s.date == date) =
      meals.flatMap (fun p => p.2.filterMap (fun item_name =>
        (db.templates.find? (fun t => t.name == item_name)).map (fun t =>
          ({ student_id := student_id, date := date, meal_type := p.1,
             template_id := some t.id } : StudentSelection)))) := by
  show (db.selections.filter _ ++ _).filter _ = _
  rw [List.filter_append]
  rw [show (db.selections.filter
      (fun s => !(s.student_id == student_id && s.date == date))).filter
      (fun s => s.student_id == student_id && s.date == date) = [] from by
    rw [List.filter_filter, List.filter_eq_nil_iff]
    intro s _
    cases h : (s.student_id == student_id && s.date == date) <;> simp [h]]
  rw [List.nil_append, List.filter_eq_self]
  intro s hs
  rw [List.mem_flatMap] at hs
  obtain ⟨p, _, hp⟩ := hs
  rw [List.mem_filterMap] at hp
  obtain ⟨nm, _, hnm⟩ := hp
  rcases hfind : db.templates.find? (fun t => t.name == nm) with _ | t
  · rw [hfind] at hnm
    simp at hnm
  · rw [hfind] at hnm
    obtain rfl := Option.some.inj hnm
    simp

/-- C7: two successive `student_select` calls for the same (student, date)
leave exactly the rows of the second request visible for that key — the
resolvable (slot, name) pairs of the second request, one row each, never a
union with the first — and unresolvable names are simply dropped. -/
theorem C7_replace_twice_last_wins :
    ∀ (db : DB) (student_id date : Nat) (m1 m2 : List (String × List String)),
      ((student_select (student_select db student_id date m1) student_id date m2).selections.filter
          (fun s => s.student_id == student_id && s.date == date) =
        (student_select db student_id date m2).selections.filter
          (fun s => s.student_id == student_id && s.date == date)) ∧
      ((student_select db student_id date m2).selections.filter
          (fun s => s.student_id == student_id && s.date == date) =
        m2.flatMap (fun p => p.2.filterMap (fun item_name =>
          (db.templates.find? (fun t => t.name == item_name)).map (fun t =>
            ({ student_id := student_id, date := date, meal_type := p.1,
               template_id := some t.id } : StudentSelection))))) := by
  intro db student_id date m1 m2
  have h1 := filter_student_select (student_select db student_id date m1)
    student_id date m2
  rw [student_select_templates] at h1
  exact ⟨h1.trans (filter_student_select db student_id date m2).symm,
    filter_student_select db student_id date m2⟩

end BlueMeal

namespace BlueMeal

/-! ### C8: create_template validation -/

/-- A request whose seven values all parse but one is negative. -/
def reqNeg : TemplateRequest :=
  ⟨some "Protein Shake", some (some (-5)), some (some 0), some (some 0),
   some (some 0), some (some 0), some (some 0), some (some 0)⟩

/-- A complete request reusing the stored name `Egg`. -/
def reqEgg : TemplateRequest :=
  ⟨some "Egg", some (some 1), some (some 1), some (some 1), some (some 1),
   some (some 1), some (some 1), some (some 1)⟩

/-- C8 as stated is false: a complete request whose `calories` value parses
to the negative float `-5` is not rejected — the template is created with
that negative value. -/
theorem C8_counterexample :
    add_menu_template [] 1 reqNeg =
      TemplateResult.created ⟨1, "Protein Shake", -5, 0, 0, 0, 0, 0, 0⟩ ∧
    (-5 : ℚ) < 0 :=
  ⟨rfl, by norm_num⟩

/-- The tail of `add_menu_template` once the eight presence checks have
passed: the duplicate-name check and the seven `float(...)` conversions. -/
def createStep (ts : List MenuItemTemplate) (next_id : Nat) (nm : String)
    (cal prot carb fat sug fib sod : Option ℚ) : TemplateResult :=
  if (ts.find? (fun t => t.name == nm)).isSome then TemplateResult.duplicateName
  else
    match cal with
    | none => TemplateResult.valueError
    | some c =>
    match prot with
    | none => TemplateResult.valueError
    | some p =>
    match carb with
    | none => TemplateResult.valueError
    | some cb =>
    match fat with
    | none => TemplateResult.valueError
    | some ft =>
    match sug with
    | none => TemplateResult.valueError
    | some sg =>
    match fib with
    | none => TemplateResult.valueError
    | some fb =>
    match sod with
    | none => TemplateResult.valueError
    | some sd =>
    TemplateResult.created ⟨next_id, nm, c, p, cb, ft, sg, fb, sd⟩

/-- C8 amended: with all eight fields present, `add_menu_template` fails
with the duplicate-name error iff the name is already stored; otherwise it
creates a template carrying exactly the seven parsed values — with no sign
check, so negative values are accepted — and raises an uncaught
`ValueError` when some value does not parse as a float. -/
theorem C8_create_template_rules (ts : List MenuItemTemplate) (next_id : Nat)
    (r : TemplateRequest) (nm : String)
    (hname : r.name = some nm) (hc : r.calories.isSome) (hp : r.protein.isSome)
    (hcb : r.carbs.isSome) (hft : r.fats.isSome) (hsg : r.sugar.isSome)
    (hfb : r.fibre.isSome) (hsd : r.sodium.isSome) :
    ((∃ t ∈ ts, t.name = nm) →
      add_menu_template ts next_id r = TemplateResult.duplicateName) ∧
    (∀ c p cb ft sg fb sd : ℚ, (∀ t ∈ ts, t.name ≠ nm) →
      r.calories = some (some c) → r.protein = some (some p) →
      r.carbs = some (some cb) → r.fats = some (some ft) →
      r.sugar = some (some sg) → r.fibre = some (some fb) →
      r.sodium = some (some sd) →
      add_menu_template ts next_id r =
        TemplateResult.created ⟨next_id, nm, c, p, cb, ft, sg, fb, sd⟩) ∧
    ((∀ t ∈ ts, t.name ≠ nm) →
      (r.calories = some none ∨ r.protein = some none ∨ r.carbs = some none ∨
       r.fats = some none ∨ r.sugar = some none ∨ r.fibre = some none ∨
       r.sodium = some none) →
      add_menu_template ts next_id r = TemplateResult.valueError) := by
  obtain ⟨cal, hcal⟩ := Option.isSome_iff_exists.1 hc
  obtain ⟨prot, hprot⟩ := Option.isSome_iff_exists.1 hp
  obtain ⟨carb, hcarb⟩ := Option.isSome_iff_exists.1 hcb
  obtain ⟨fat, hfat⟩ := Option.isSome_iff_exists.1 hft
  obtain ⟨sug, hsug⟩ := Option.isSome_iff_exists.1 hsg
  obtain ⟨fib, hfib⟩ := Option.isSome_iff_exists.1 hfb
  obtain ⟨sod, hsod⟩ := Option.isSome_iff_exists.1 hsd
  have hbody : add_menu_template ts next_id r =
      createStep ts next_id nm cal prot carb fat sug fib sod := by
    simp only [add_menu_template, hname, hcal, hprot, hcarb, hfat, hsug, hfib, hsod]
    rfl
  refine ⟨?_, ?_, ?_⟩
  · rintro ⟨t, ht, hteq⟩
    rw [hbody, createStep.eq_def, if_pos ?_]
    rw [List.find?_isSome]
    exact ⟨t, ht, by simp [hteq]⟩
  · intro c p cb ft sg fb sd hno hc2 hp2 hcb2 hft2 hsg2 hfb2 hsd2
    rw [hcal] at hc2
    rw [hprot] at hp2
    rw [hcarb] at hcb2
    rw [hfat] at hft2
    rw [hsug] at hsg2
    rw [hfib] at hfb2
    rw [hsod] at hsd2
    obtain rfl := Option.some.inj hc2
    obtain rfl := Option.some.inj hp2
    obtain rfl := Option.some.inj hcb2
    obtain rfl := Option.some.inj hft2
    obtain rfl := Option.some.inj hsg2
    obtain rfl := Option.some.inj hfb2
    obtain rfl := Option.some.inj hsd2
    rw [hbody, createStep.eq_def, if_neg ?_]
    rw [List.find?_isSome]
    rintro ⟨t, ht, hteq⟩
    exact hno t ht (by simpa using hteq)
  · intro hno hbad
    have hdup : ¬ ((ts.find? (fun t => t.name == nm)).isSome = true) := by
      rw [List.find?_isSome]
      rintro ⟨t, ht, hteq⟩
      exact hno t ht (by simpa using hteq)
    rw [hbody, createStep.eq_def, if_neg hdup]
    rcases cal with _ | c
    · rfl
    rcases prot with _ | p
    · rfl
    rcases carb with _ | cb
    · rfl
    rcases fat with _ | ft
    · rfl
    rcases sug with _ | sg
    · rfl
    rcases fib with _ | fb
    · rfl
    rcases sod with _ | sd
    · rfl
    exfalso
    rcases hbad with h | h | h | h | h | h | h
    · rw [hcal] at h
      simp at h
    · rw [hprot] at h
      simp at h
    · rw [hcarb] at h
      simp at h
    · rw [hfat] at h
      simp at h
    · rw [hsug] at h
      simp at h
    · rw [hfib] at h
      simp at h
    · rw [hsod] at h
      simp at h

/-- C8 amended at concrete requests: duplicate name rejected; a fresh,
fully-parsing request (negative value included) creates the row. -/
theorem C8_witness :
    add_menu_template [tEgg] 2 reqEgg = TemplateResult.duplicateName ∧
    add_menu_template [] 1 reqNeg =
      TemplateResult.created ⟨1, "Protein Shake", -5, 0, 0, 0, 0, 0, 0⟩ :=
  ⟨(C8_create_template_rules [tEgg] 2 reqEgg "Egg"
      rfl rfl rfl rfl rfl rfl rfl rfl).1 ⟨tEgg, by decide, rfl⟩,
   (C8_create_template_rules [] 1 reqNeg "Protein Shake"
      rfl rfl rfl rfl rfl rfl rfl rfl).2.1 (-5) 0 0 0 0 0 0
      (fun t ht => absurd ht (List.not_mem_nil t))
      rfl rfl rfl rfl rfl rfl rfl⟩

end BlueMeal

namespace BlueMeal

/-! ### C1: when a warning or deficiency is emitted -/

/-- The suggestion is the warning dict for nutrient `n`. -/
def Suggestion.isWarningFor (n : String) : Suggestion → Prop
  | Suggestion.warning n' _ _ _ => n' = n
  | Suggestion.deficiency _ _ _ _ _ _ _ _ => False

/-- The suggestion is the deficiency dict for nutrient `n` (the code stores
the capitalized key). -/
def Suggestion.isDeficiencyFor (n : String) : Suggestion → Prop
  | Suggestion.warning _ _ _ _ => False
  | Suggestion.deficiency n' _ _ _ _ _ _ _ => n' = n.capitalize

lemma mem_def_suggListFor (ts : List MenuItemTemplate) (meals : Dict (List String))
    (m : String) (v : ℚ) (n : String) :
    (∃ s ∈ suggListFor ts meals m v, s.isDeficiencyFor n) ↔
      (¬ (m = "sugar" ∨ m = "sodium")) ∧ v < (recOf m).min ∧
        m.capitalize = n.capitalize := by
  unfold suggListFor
  split_ifs with h1 h2 <;>
    simp_all [warnSugg, defSugg, Suggestion.isDeficiencyFor]

lemma mem_warn_suggListFor (ts : List MenuItemTemplate) (meals : Dict (List String))
    (m : String) (v : ℚ) (n : String) :
    (∃ s ∈ suggListFor ts meals m v, s.isWarningFor n) ↔
      (m = "sugar" ∨ m = "sodium") ∧ v > (recOf m).max ∧ m = n := by
  unfold suggListFor
  split_ifs with h1 h2 <;>
    simp_all [warnSugg, defSugg, Suggestion.isWarningFor]

lemma capitalize_inj_nutrients (m n : String) (hm : m ∈ NUTRIENTS)
    (hn : n ∈ NUTRIENTS) (h : m.capitalize = n.capitalize) : m = n := by
  fin_cases hm <;> fin_cases hn <;> first | rfl | (exfalso; revert h; decide)

lemma exists_mem_flatMap_iff {α β : Type} (l : List α) (g : α → List β)
    (P : β → Prop) :
    (∃ s ∈ l.flatMap g, P s) ↔ ∃ m ∈ l, ∃ s ∈ g m, P s := by
  constructor
  · rintro ⟨s, hs, hP⟩
    rw [List.mem_flatMap] at hs
    obtain ⟨m, hm, hsm⟩ := hs
    exact ⟨m, hm, s, hsm, hP⟩
  · rintro ⟨m, hm, s, hsm, hP⟩
    exact ⟨s, List.mem_flatMap.2 ⟨m, hm, hsm⟩, hP⟩

/-- C1: over any totals map on the seven tracked nutrients, the generator
emits a deficiency for nutrient N iff `total[N] < spec[N].min` and N is not
sugar or sodium, and a warning for N iff N is sugar or sodium and
`total[N] > spec[N].max`; in every other case neither is emitted for N. -/
theorem C1_suggestion_rule (ts : List MenuItemTemplate) (meals : Dict (List String))
    (f : String → ℚ) (l : List Suggestion) (n : String) (r : RecRange)
    (hn : n ∈ NUTRIENTS) (hr : dget DAILY_RECOMMENDED n = some r)
    (hl : generate_suggestions ts (mkNDict f) meals = some l) :
    ((∃ s ∈ l, s.isDeficiencyFor n) ↔
      (f n < r.min ∧ ¬ (n = "sugar" ∨ n = "sodium"))) ∧
    ((∃ s ∈ l, s.isWarningFor n) ↔
      ((n = "sugar" ∨ n = "sodium") ∧ f n > r.max)) := by
  have hrec : recOf n = r := by rw [recOf, hr]; rfl
  rw [generate_suggestions_mk] at hl
  obtain rfl : l = _ := (Option.some.inj hl).symm
  constructor
  · rw [exists_mem_flatMap_iff]
    constructor
    · rintro ⟨m, hm, hs⟩
      rw [mem_def_suggListFor] at hs
      obtain ⟨hms, hlt, hcap⟩ := hs
      obtain rfl : m = n := capitalize_inj_nutrients m n hm hn hcap
      rw [hrec] at hlt
      exact ⟨hlt, hms⟩
    · rintro ⟨hlt, hns⟩
      refine ⟨n, hn, ?_⟩
      rw [mem_def_suggListFor, hrec]
      exact ⟨hns, hlt, rfl⟩
  · rw [exists_mem_flatMap_iff]
    constructor
    · rintro ⟨m, hm, hs⟩
      rw [mem_warn_suggListFor] at hs
      obtain ⟨hms, hgt, rfl⟩ := hs
      rw [hrec] at hgt
      exact ⟨hms, hgt⟩
    · rintro ⟨hns, hgt⟩
      refine ⟨n, hn, ?_⟩
      rw [mem_warn_suggListFor, hrec]
      exact ⟨hns, hgt, rfl⟩

end BlueMeal

namespace BlueMeal

unseal Rat.mul Rat.add Rat.sub Rat.inv in
/-- C1 at a concrete totals map (calories 0, the others within range):
exactly the calories deficiency is emitted and no sugar warning. -/
theorem C1_witness :
    ((∃ s ∈ [Suggestion.deficiency "Calories" 0 1800 1800 "kcal"
        "Provides energy for daily activities and learning"
        "You might feel tired and struggle with physical activities" []],
      s.isDeficiencyFor "calories") ↔
      ((0 : ℚ) < 1800 ∧ ¬ ("calories" = "sugar" ∨ "calories" = "sodium"))) ∧
    ((∃ s ∈ [Suggestion.deficiency "Calories" 0 1800 1800 "kcal"
        "Provides energy for daily activities and learning"
        "You might feel tired and struggle with physical activities" []],
      s.isWarningFor "calories") ↔
      (("calories" = "sugar" ∨ "calories" = "sodium") ∧ (0 : ℚ) > 2400)) :=
  C1_suggestion_rule []
    []
    (fun n => if n = "calories" then (0 : ℚ)
      else if n = "sugar" ∨ n = "sodium" then 0 else 10000)
    [Suggestion.deficiency "Calories" 0 1800 1800 "kcal"
      "Provides energy for daily activities and learning"
      "You might feel tired and struggle with physical activities" []]
    "calories" ⟨1800, 2400, "kcal"⟩ (by decide) rfl (by decide)

end BlueMeal

namespace BlueMeal

/-! ### C4: the ranked substitute list of a deficiency -/

lemma mem_foldl_append {α : Type} (l : List (String × List α)) (init : List α)
    (x : α) :
    x ∈ l.foldl (fun acc p => acc ++ p.2) init ↔ x ∈ init ∨ ∃ q ∈ l, x ∈ q.2 := by
  induction l generalizing init with
  | nil => simp
  | cons q qs ih =>
    rw [List.foldl_cons, ih]
    constructor
    · rintro (hx | ⟨q2, hq2, hxq2⟩)
      · rw [List.mem_append] at hx
        rcases hx with hx | hx
        · exact Or.inl hx
        · exact Or.inr ⟨q, List.mem_cons_self q qs, hx⟩
      · exact Or.inr ⟨q2, List.mem_cons_of_mem q hq2, hxq2⟩
    · rintro (hx | ⟨q2, hq2, hxq2⟩)
      · exact Or.inl (List.mem_append.2 (Or.inl hx))
      · rcases List.mem_cons.1 hq2 with rfl | hq2
        · exact Or.inl (List.mem_append.2 (Or.inr hxq2))
        · exact Or.inr ⟨q2, hq2, hxq2⟩

lemma find_items_spec (ts : List MenuItemTemplate) (n : String)
    (meals : Dict (List String)) (hn : n ∈ nutrient_map_keys) :
    ∃ cand : List MenuItemTemplate,
      (find_items_high_in_nutrient ts n meals).take 3 =
        cand.map (fun t =>
          ({ name := t.name, amount := round1 (templateField n t),
             unit := (recOf n).unit } : RecItem)) ∧
      cand.length ≤ 3 ∧
      List.Pairwise (fun a b => templateField n b ≤ templateField n a) cand ∧
      (∀ t ∈ cand, ∀ q ∈ meals, t.name ∉ q.2) := by
  have hu : ((dget DAILY_RECOMMENDED n).map RecRange.unit).getD "" = (recOf n).unit := by
    fin_cases hn <;> rfl
  unfold find_items_high_in_nutrient
  rw [if_pos hn]
  simp only [hu]
  set r := fun a b : MenuItemTemplate => templateField n b ≤ templateField n a with hrdef
  set excl := meals.foldl (fun acc p => acc ++ p.2) [] with hexcl
  set sorted := (ts.filter (fun t => !(excl.contains t.name))).insertionSort r
    with hsorted
  haveI htot : IsTotal MenuItemTemplate r :=
    ⟨fun a b => (le_total (templateField n b) (templateField n a))⟩
  haveI htrans : IsTrans MenuItemTemplate r :=
    ⟨fun a b c hab hbc => le_trans hbc hab⟩
  refine ⟨sorted.take 3, ?_, ?_, ?_, ?_⟩
  · rw [← List.map_take, List.take_take]
    norm_num
  · exact List.length_take_le 3 sorted
  · exact List.Pairwise.sublist (List.take_sublist 3 sorted)
      (List.sorted_insertionSort r _)
  · intro t ht q hq hname
    have hts : t ∈ sorted := List.take_subset 3 sorted ht
    rw [hsorted, List.mem_insertionSort] at hts
    rw [List.mem_filter] at hts
    have hcontains : excl.contains t.name = true := by
      rw [List.contains_iff_exists_mem_beq]
      exact ⟨t.name, (mem_foldl_append meals [] t.name).2
        (Or.inr ⟨q, hq, hname⟩), beq_self_eq_true t.name⟩
    rw [hcontains] at hts
    simp at hts

/-- C4: the ranked substitute list carried by any deficiency suggestion has
at most three entries, lists only items whose names are not among that
day\x27s selected items in any slot (exact, case-sensitive match), and is the
image of a candidate template list sorted descending by the deficient
nutrient\x27s value. -/
theorem C4_deficiency_items (ts : List MenuItemTemplate) (meals : Dict (List String))
    (f : String → ℚ) (l : List Suggestion)
    (hl : generate_suggestions ts (mkNDict f) meals = some l)
    (nm : String) (cur tgt df : ℚ) (u b di : String) (items : List RecItem)
    (hmem : Suggestion.deficiency nm cur tgt df u b di items ∈ l) :
    items.length ≤ 3 ∧
    ∃ n ∈ nutrient_map_keys, nm = n.capitalize ∧
      ∃ cand : List MenuItemTemplate,
        items = cand.map (fun t =>
          ({ name := t.name, amount := round1 (templateField n t),
             unit := (recOf n).unit } : RecItem)) ∧
        List.Pairwise (fun a b => templateField n b ≤ templateField n a) cand ∧
        (∀ t ∈ cand, ∀ q ∈ meals, t.name ∉ q.2) := by
  rw [generate_suggestions_mk] at hl
  obtain rfl : l = _ := (Option.some.inj hl).symm
  rw [List.mem_flatMap] at hmem
  obtain ⟨m, hm, hsm⟩ := hmem
  unfold suggListFor at hsm
  split_ifs at hsm with h1 h2
  · simp [warnSugg] at hsm
  · simp at hsm
  · rw [List.mem_singleton] at hsm
    unfold defSugg at hsm
    rw [Suggestion.deficiency.injEq] at hsm
    obtain ⟨hnm, _, _, _, _, _, _, hitems⟩ := hsm
    have hmk : m ∈ nutrient_map_keys := by
      fin_cases hm <;> simp_all [nutrient_map_keys]
    obtain ⟨cand, hcand, hlen, hpair, hexcl2⟩ := find_items_spec ts m meals hmk
    rw [hitems, hcand]
    refine ⟨by rw [List.length_map]; exact hlen, m, hmk, hnm, cand, rfl, hpair, hexcl2⟩
  · simp at hsm

end BlueMeal

namespace BlueMeal

unseal Rat.mul Rat.add Rat.sub Rat.inv in
/-- C4 at a concrete store: the protein deficiency over `[tEgg]` with no
selected items recommends `Egg` (6 g protein), a one-element ranked list. -/
theorem C4_witness :
    ([({ name := "Egg", amount := 6, unit := "g" } : RecItem)].length ≤ 3) ∧
    ∃ n ∈ nutrient_map_keys, "Protein" = n.capitalize ∧
      ∃ cand : List MenuItemTemplate,
        [({ name := "Egg", amount := 6, unit := "g" } : RecItem)] =
          cand.map (fun t =>
            ({ name := t.name, amount := round1 (templateField n t),
               unit := (recOf n).unit } : RecItem)) ∧
        List.Pairwise (fun a b => templateField n b ≤ templateField n a) cand ∧
        (∀ t ∈ cand, ∀ q ∈ ([] : Dict (List String)), t.name ∉ q.2) :=
  C4_deficiency_items [tEgg] []
    (fun n => if n = "protein" then (0 : ℚ)
      else if n = "sugar" ∨ n = "sodium" then 0 else 10000)
    [Suggestion.deficiency "Protein" 0 50 50 "g"
      "Helps build muscle and keeps you full longer"
      "You might feel tired during afternoon classes"
      [{ name := "Egg", amount := 6, unit := "g" }]]
    (by decide) "Protein" 0 50 50 "g"
    "Helps build muscle and keeps you full longer"
    "You might feel tired during afternoon classes"
    [{ name := "Egg", amount := 6, unit := "g" }] (by decide)

end BlueMeal
